import Mathlib

/-!
Verification of the resilient request client of the Influencore repository.

The repository holds several revisions of the same single-page application;
the only substantive logic is the ApiClient resilience wrapper (timeout,
bounded retry with backoff, offline queueing, auth-header injection).  The
definitions below are shallow embeddings of the three client revisions that
the claims cite:

* `app*`  : the ApiClient of src/App.jsx (identical to the first ApiClient
  of src/unnamed/part_002): offline queue, AbortError converted to
  Error "Request timeout - please try again", retry classifier matching
  AbortError / "fetch" / "network" / "timeout", backoff
  min (1000 * 2 ^ attempt) 5000, maxRetries from config.
* `test*` : the ApiClient of src/test.js: no offline queue (offline calls
  throw Error "No internet connection"), AbortError propagates unchanged,
  retry classifier matching AbortError / "fetch" / "network", same capped
  backoff.
* `v2*`   : the second ApiClient of src/unnamed/part_002 (around lines
  877-965): offline queue, AbortError converted to Error "Request timeout",
  retry classifier matching AbortError / "fetch" / "network" (the
  conversion makes the AbortError branch unreachable), uncapped backoff
  1000 * 2 ^ attempt, retry bound hard-coded to 3.

The network exchange itself is external; a `FetchOutcome` value supplies
the low-level result of each dispatched attempt, and the embeddings mirror
how each revision turns that outcome into a thrown error or returned data.
-/

namespace Influencore

/-- JavaScript string `includes` on lists of characters: does `s` have
`sub` as a prefix, checked at every suffix position. -/
def charsHavePrefix : (s pre : List Char) → Bool
  | _, [] => true
  | [], _ :: _ => false
  | c :: cs, p :: ps => c == p && charsHavePrefix cs ps

/-- Recursive search of `charsHavePrefix` over every suffix of `s`. -/
def charsContain : (s sub : List Char) → Bool
  | [], sub => charsHavePrefix [] sub
  | c :: cs, sub => charsHavePrefix (c :: cs) sub || charsContain cs sub

/-- `String.prototype.includes` as used by the retry classifiers. -/
def strContainsSub (s sub : String) : Bool :=
  charsContain s.toList sub.toList

/-- A thrown JavaScript `Error`: its `name` and `message` fields, the only
two fields the clients inspect. -/
structure JsError where
  name : String
  message : String
deriving DecidableEq

/-- The low-level result of one dispatched fetch attempt, supplied by the
environment: a successful response carrying decoded data, a non-ok HTTP
response (status, statusText, and the `message` field of the parsed error
body — `none` when the body is absent or unparsable, mirroring
`response.json().catch(() => ({}))`), a rejection of `fetch` itself
(name and message of the thrown error, e.g. TypeError "Failed to fetch"),
or expiry of the timeout guard (the AbortController fired). -/
inductive FetchOutcome where
  | success (data : String)
  | httpError (status : Nat) (statusText : String) (bodyMessage : Option String)
  | netFailure (name : String) (message : String)
  | timedOut
deriving DecidableEq

/-- The `config` object shared by the revisions (src/App.jsx lines 14-25,
src/test.js, src/unnamed/part_000): request timeout and retry maximum. -/
structure Config where
  apiTimeout : Nat
  maxRetries : Nat

/-- Default configuration: `apiTimeout: 30000, maxRetries: 3`. -/
def config : Config := ⟨30000, 3⟩

/-- Error message construction of src/App.jsx `makeRequest`:
`errorData.message || ‹API Error: ${response.status} ${response.statusText}›`.
A missing or unparsable body gives `errorData = {}` hence no message; an
empty-string message is falsy in JavaScript and also falls back. -/
def appErrorMessage (status : Nat) (statusText : String)
    (bodyMessage : Option String) : String :=
  match bodyMessage with
  | some m =>
      if m = "" then "API Error: " ++ toString status ++ " " ++ statusText
      else m
  | none => "API Error: " ++ toString status ++ " " ++ statusText

/-- src/App.jsx `ApiClient.makeRequest`, one attempt: a non-ok response
throws the constructed error message, a fetch rejection is rethrown as-is,
and an AbortError (timeout expiry) is converted to
Error "Request timeout - please try again". -/
def appMakeRequest (o : FetchOutcome) : Except JsError String :=
  match o with
  | .success d => .ok d
  | .httpError st stx bm => .error ⟨"Error", appErrorMessage st stx bm⟩
  | .netFailure n m => .error ⟨n, m⟩
  | .timedOut => .error ⟨"Error", "Request timeout - please try again"⟩

/-- src/App.jsx retry classifier (`shouldRetry` without the attempt-count
conjunct): AbortError, or a message containing "fetch", "network" or
"timeout". -/
def appRetryable (e : JsError) : Bool :=
  e.name == "AbortError" || strContainsSub e.message "fetch" ||
    strContainsSub e.message "network" || strContainsSub e.message "timeout"

/-- src/App.jsx backoff: `Math.min(1000 * Math.pow(2, attempt), 5000)`. -/
def appDelay (attempt : Nat) : Nat :=
  min (1000 * 2 ^ attempt) 5000

deriving instance DecidableEq for Except

/-- Observable execution record of one run of the `apiCall` retry loop:
the value returned or error thrown, the 0-indexed attempt numbers that
were actually dispatched (in order), and the backoff delays awaited
between attempts (in order). -/
structure CallTrace where
  result : Except JsError String
  dispatched : List Nat
  delays : List Nat
deriving DecidableEq

/-- The `for (let attempt = 0; attempt <= maxRetries; attempt++)` retry
loop shared by the client revisions, parameterised by the revision's
`makeRequest` embedding, retry classifier and backoff formula.
`remaining = maxRetries - attempt` counts the attempts still allowed, so
`remaining = 0` is exactly `isLastAttempt`; `outs i` is the fetch outcome
of attempt `i`.  The loop never reads the network flag: the source reads
`this.isOnline` only before the loop starts. -/
def retryLoop (mk : FetchOutcome → Except JsError String)
    (retr : JsError → Bool) (delayOf : Nat → Nat)
    (outs : Nat → FetchOutcome) (attempt : Nat) :
    Nat → CallTrace
  | 0 =>
      match mk (outs attempt) with
      | .ok d => ⟨.ok d, [attempt], []⟩
      | .error e => ⟨.error e, [attempt], []⟩
  | r + 1 =>
      match mk (outs attempt) with
      | .ok d => ⟨.ok d, [attempt], []⟩
      | .error e =>
          if retr e then
            let rest := retryLoop mk retr delayOf outs (attempt + 1) r
            ⟨rest.result, attempt :: rest.dispatched,
              delayOf attempt :: rest.delays⟩
          else ⟨.error e, [attempt], []⟩

/-- Result of one `apiCall` invocation: either the request was pushed onto
the offline queue (the caller holds a still-pending promise), or the retry
loop ran to a returned value or thrown error. -/
inductive ApiCallResult where
  | queued
  | completed (t : CallTrace)
deriving DecidableEq

/-- src/App.jsx `ApiClient.apiCall`: when `this.isOnline` is false the
request is queued and the promise stays pending; otherwise the retry loop
runs with the configured maximum. -/
def appApiCall (isOnline : Bool) (maxRetries : Nat)
    (outs : Nat → FetchOutcome) : ApiCallResult :=
  if isOnline then
    .completed (retryLoop appMakeRequest appRetryable appDelay outs 0 maxRetries)
  else .queued

/-- Error message construction of src/test.js `makeRequest`:
`errorData.message || ‹API Error: ${response.status}›` (no statusText). -/
def testErrorMessage (status : Nat) (bodyMessage : Option String) : String :=
  match bodyMessage with
  | some m => if m = "" then "API Error: " ++ toString status else m
  | none => "API Error: " ++ toString status

/-- src/test.js `ApiClient.makeRequest`: like App.jsx but the AbortError
is rethrown unchanged (its message text comes from the host environment
and is never inspected; only its `name` is). -/
def testMakeRequest (o : FetchOutcome) : Except JsError String :=
  match o with
  | .success d => .ok d
  | .httpError st _ bm => .error ⟨"Error", testErrorMessage st bm⟩
  | .netFailure n m => .error ⟨n, m⟩
  | .timedOut => .error ⟨"AbortError", "The operation was aborted"⟩

/-- src/test.js retry classifier: AbortError, "fetch" or "network" (no
"timeout" clause). -/
def testRetryable (e : JsError) : Bool :=
  e.name == "AbortError" || strContainsSub e.message "fetch" ||
    strContainsSub e.message "network"

/-- src/test.js `ApiClient.apiCall`: an offline call throws
Error "No internet connection" at once — this revision has no queue. -/
def testApiCall (isOnline : Bool) (maxRetries : Nat)
    (outs : Nat → FetchOutcome) : ApiCallResult :=
  if isOnline then
    .completed (retryLoop testMakeRequest testRetryable appDelay outs 0 maxRetries)
  else .completed ⟨.error ⟨"Error", "No internet connection"⟩, [], []⟩

/-- Error message construction of the second src/unnamed/part_002 client:
`errorData.message || ‹API Error: ${response.status}›`. -/
def v2ErrorMessage (status : Nat) (bodyMessage : Option String) : String :=
  match bodyMessage with
  | some m => if m = "" then "API Error: " ++ toString status else m
  | none => "API Error: " ++ toString status

/-- Second src/unnamed/part_002 `makeRequest`: the AbortError is converted
to Error "Request timeout". -/
def v2MakeRequest (o : FetchOutcome) : Except JsError String :=
  match o with
  | .success d => .ok d
  | .httpError st _ bm => .error ⟨"Error", v2ErrorMessage st bm⟩
  | .netFailure n m => .error ⟨n, m⟩
  | .timedOut => .error ⟨"Error", "Request timeout"⟩

/-- Second src/unnamed/part_002 retry classifier: AbortError, "fetch" or
"network".  Note `makeRequest` above never lets an AbortError through, so
the AbortError branch can never fire. -/
def v2Retryable (e : JsError) : Bool :=
  e.name == "AbortError" || strContainsSub e.message "fetch" ||
    strContainsSub e.message "network"

/-- Second src/unnamed/part_002 backoff: `1000 * Math.pow(2, attempt)`,
with no 5000 ms cap. -/
def v2Delay (attempt : Nat) : Nat :=
  1000 * 2 ^ attempt

/-- Second src/unnamed/part_002 `apiCall`: offline calls are queued; the
retry bound is the literal 3. -/
def v2ApiCall (isOnline : Bool) (outs : Nat → FetchOutcome) : ApiCallResult :=
  if isOnline then
    .completed (retryLoop v2MakeRequest v2Retryable v2Delay outs 0 3)
  else .queued

/-- An entry of `this.requestQueue`: the pending request descriptor
(identified by `id` for bookkeeping) together with the fetch outcome its
eventual single dispatch would produce.  The source stores
`{ resolve, reject, endpoint, options }`; the promise handles are
represented by settling against `id`. -/
structure QueuedReq where
  id : Nat
  outcome : FetchOutcome
deriving DecidableEq

/-- How a queued request's pending promise is settled during the drain. -/
inductive Settlement where
  | resolved (id : Nat) (data : String)
  | rejected (id : Nat) (e : JsError)
deriving DecidableEq

/-- The id of the request a settlement settles. -/
def Settlement.reqId : Settlement → Nat
  | .resolved i _ => i
  | .rejected i _ => i

/-- The single-dispatch settlement of one dequeued request, extracted from
the body of `processQueue`: one `makeRequest` call, `resolve` on success,
`reject` on failure.  No retry loop and no backoff delay is involved. -/
def settleOne (r : QueuedReq) : Settlement :=
  match appMakeRequest r.outcome with
  | .ok d => .resolved r.id d
  | .error e => .rejected r.id e

/-- src/App.jsx `ApiClient.processQueue`:
`while (queue.length > 0 && this.isOnline) { shift; makeRequest; settle }`.
`online k` is the value of `this.isOnline` observed at the k-th loop-guard
check (an offline event during an awaited dispatch flips later reads).
Returns the settlements produced, in order, and the requests still queued
when the loop exits. -/
def processQueue (online : Nat → Bool) :
    Nat → List QueuedReq → List Settlement × List QueuedReq
  | _, [] => ([], [])
  | step, r :: rest =>
      if online step then
        let res := processQueue online (step + 1) rest
        (settleOne r :: res.1, res.2)
      else ([], r :: rest)

/-- The mutable state of one ApiClient instance that `apiCall` touches:
the network flag and the offline queue. -/
structure ClientState where
  isOnline : Bool
  requestQueue : List QueuedReq
deriving DecidableEq

/-- src/App.jsx `ApiClient.apiCall` including its effect on the client
state: offline, the descriptor is pushed onto the end of
`this.requestQueue` and the caller's promise stays pending (`queued`);
online, the state is untouched and the retry loop runs. -/
def appApiCallSt (outs : Nat → FetchOutcome) (st : ClientState)
    (r : QueuedReq) : ClientState × ApiCallResult :=
  if st.isOnline then
    (st, .completed (retryLoop appMakeRequest appRetryable appDelay outs 0 config.maxRetries))
  else
    ({ st with requestQueue := st.requestQueue ++ [r] }, .queued)

/-- AuthProvider token-header logic needs JavaScript truthiness of an
optional string: absent and empty are falsy. -/
def truthyStr : Option String → Bool
  | none => false
  | some s => !(s == "")

/-- `{...headers, Authorization: v}`: set or overwrite one header key,
keeping lookup semantics. -/
def setHeader (headers : List (String × String)) (k v : String) :
    List (String × String) :=
  headers.filter (fun p => !(p.1 == k)) ++ [(k, v)]

/-- src/App.jsx and src/test.js `AuthProvider.apiCall` header step:
`if (token && !options.headers?.Authorization) options.headers =
{...options.headers, Authorization: Bearer token}`.  It runs once, on the
options object, before `apiClient.apiCall` is invoked. -/
def authInjectHeaders (token : Option String)
    (headers : List (String × String)) : List (String × String) :=
  if truthyStr token && !truthyStr (headers.lookup "Authorization") then
    setHeader headers "Authorization" ("Bearer " ++ token.getD "")
  else headers

/-- The Authorization header value the dispatch of attempt `attempt` uses.
`tokenAt i` is the token store's content at the time attempt `i` runs;
the source captures the token once, when `apiCall` is entered, so the
headers of every attempt come from `tokenAt 0` and the parameter
`attempt` is never consulted. -/
def authHeaderAtAttempt (tokenAt : Nat → Option String)
    (headers : List (String × String)) (attempt : Nat) : Option String :=
  (authInjectHeaders (tokenAt 0) headers).lookup "Authorization"

/-- A fetch environment in which every attempt fails with the browser
network-failure error TypeError "Failed to fetch". -/
def persistentNetFailure : Nat → FetchOutcome :=
  fun _ => .netFailure "TypeError" "Failed to fetch"

/-- A network trace that is online when the call enters and offline from
the first retry on. -/
def offlineAfterFirst : Nat → Bool :=
  fun i => i == 0

/-- A fetch environment whose first attempt hits the timeout guard and
whose later attempts would succeed. -/
def timeoutThenSuccess : Nat → FetchOutcome :=
  fun i => if i == 0 then .timedOut else .success "ok"

/-- A token store that rotates between the first and second attempt. -/
def rotatedToken : Nat → Option String :=
  fun i => if i == 0 then some "old-token" else some "new-token"


/-- Every backoff delay recorded by the retry loop follows the revision's
delay formula at the index of the attempt that just failed. -/
theorem retryLoop_delays_get (mk : FetchOutcome → Except JsError String)
    (retr : JsError → Bool) (delayOf : Nat → Nat) (outs : Nat → FetchOutcome) :
    ∀ (r a i d : Nat),
      (retryLoop mk retr delayOf outs a r).delays[i]? = some d →
      d = delayOf (a + i) := by
  intro r
  induction r with
  | zero =>
    intro a i d h
    rcases hmk : mk (outs a) with e | x <;> simp [retryLoop, hmk] at h
  | succ r ih =>
    intro a i d h
    rcases hmk : mk (outs a) with e | x
    · simp only [retryLoop, hmk] at h
      by_cases hret : retr e
      · simp only [hret, if_true] at h
        cases i with
        | zero =>
          simp at h
          simpa [Nat.add_zero] using h.symm
        | succ j =>
          simp only [List.getElem?_cons_succ] at h
          have hd := ih (a + 1) j d h
          have harith : a + 1 + j = a + (j + 1) := by omega
          rwa [harith] at hd
      · simp [hret] at h
    · simp [retryLoop, hmk] at h

/-- The retry loop records at most `remaining` backoff delays. -/
theorem retryLoop_delays_length (mk : FetchOutcome → Except JsError String)
    (retr : JsError → Bool) (delayOf : Nat → Nat) (outs : Nat → FetchOutcome) :
    ∀ (r a : Nat), (retryLoop mk retr delayOf outs a r).delays.length ≤ r := by
  intro r
  induction r with
  | zero =>
    intro a
    rcases hmk : mk (outs a) with e | x <;> simp [retryLoop, hmk]
  | succ r ih =>
    intro a
    rcases hmk : mk (outs a) with e | x
    · simp only [retryLoop, hmk]
      by_cases hret : retr e
      · simpa [hret] using ih (a + 1)
      · simp [hret]
    · simp [retryLoop, hmk]

/-- The retry loop always dispatches at least one attempt. -/
theorem retryLoop_dispatched_ne_nil (mk : FetchOutcome → Except JsError String)
    (retr : JsError → Bool) (delayOf : Nat → Nat) (outs : Nat → FetchOutcome)
    (r a : Nat) : (retryLoop mk retr delayOf outs a r).dispatched ≠ [] := by
  cases r <;> rcases hmk : mk (outs a) with e | x <;>
    simp only [retryLoop, hmk] <;> (try split) <;> simp

/-- When every allowed attempt fails with a retryable error, the loop
dispatches all of them, waits the formula delay between consecutive ones,
and ends with the error of the last attempt. -/
theorem retryLoop_all_fail (mk : FetchOutcome → Except JsError String)
    (retr : JsError → Bool) (delayOf : Nat → Nat) (outs : Nat → FetchOutcome)
    (e : Nat → JsError) :
    ∀ (r a : Nat),
      (∀ i, i ≤ r → mk (outs (a + i)) = .error (e (a + i)) ∧ retr (e (a + i)) = true) →
      retryLoop mk retr delayOf outs a r
        = ⟨.error (e (a + r)), List.range' a (r + 1), (List.range' a r).map delayOf⟩ := by
  intro r
  induction r with
  | zero =>
    intro a h
    have h0 := h 0 (Nat.le_refl 0)
    rw [Nat.add_zero] at h0
    simp [retryLoop, h0.1, List.range']
  | succ r ih =>
    intro a h
    have h0 := h 0 (Nat.zero_le _)
    rw [Nat.add_zero] at h0
    have hrec := ih (a + 1) (fun i hi => by
      have hx := h (i + 1) (Nat.succ_le_succ hi)
      have harith : a + (i + 1) = a + 1 + i := by omega
      rwa [harith] at hx)
    simp only [retryLoop, h0.1, h0.2, if_true, hrec]
    have harith : a + 1 + r = a + (r + 1) := by omega
    simp [List.range', harith]

/-- `processQueue` settles a prefix of the queue, in order, by single
dispatches, and leaves exactly the matching suffix queued; when the
network flag stays true at every loop check, the whole queue is settled. -/
theorem processQueue_spec (online : Nat → Bool) :
    ∀ (q : List QueuedReq) (step : Nat),
      ∃ k, k ≤ q.length ∧
        processQueue online step q = ((q.take k).map settleOne, q.drop k) ∧
        ((∀ s, online s = true) → k = q.length) := by
  intro q
  induction q with
  | nil =>
    intro step
    exact ⟨0, Nat.le_refl 0, by simp [processQueue], fun _ => rfl⟩
  | cons r rest ih =>
    intro step
    by_cases hon : online step = true
    · obtain ⟨k, hk, heq, hall⟩ := ih (step + 1)
      refine ⟨k + 1, Nat.succ_le_succ hk, ?_, fun h => by simp [hall h]⟩
      simp [processQueue, hon, heq]
    · refine ⟨0, Nat.zero_le _, ?_, fun h => absurd (h step) (by simpa using hon)⟩
      simp [processQueue, hon]

/-- Lookup after `setHeader` finds the value just set: the JavaScript
object-spread update `{...headers, Authorization: v}` makes the
Authorization lookup return `v`. -/
theorem lookup_setHeader (headers : List (String × String)) (k v : String) :
    (setHeader headers k v).lookup k = some v := by
  induction headers with
  | nil => simp [setHeader, List.lookup]
  | cons p rest ih =>
    by_cases hk : p.1 = k
    · simpa [setHeader, List.filter, hk] using ih
    · have hk2 : (p.1 == k) = false := by simp [hk]
      have hk3 : (k == p.1) = false := by simp [Ne.symm hk]
      simpa [setHeader, List.filter, hk2, List.lookup, hk3] using ih

/-- C1, counterexample: in the src/test.js revision an `apiCall` made
while the network state is offline is not placed on any queue — the
client has no queue — and the caller is rejected at once with
Error "No internet connection", so the claim as stated fails on that
revision. -/
theorem c1_counterexample :
    testApiCall false config.maxRetries persistentNetFailure
      = .completed ⟨.error ⟨"Error", "No internet connection"⟩, [], []⟩
    ∧ testApiCall false config.maxRetries persistentNetFailure ≠ .queued :=
  ⟨rfl, by decide⟩

/-- C1, amended: in the queue-equipped revisions (src/App.jsx and both
clients of src/unnamed/part_002) an `apiCall` made while the network
state is offline appends the request descriptor to the end of the
ordered request queue and leaves the caller's promise pending, dispatching
nothing; the src/test.js revision instead rejects immediately with
Error "No internet connection". -/
theorem c1_offline_queueing (outs : Nat → FetchOutcome) (st : ClientState)
    (r : QueuedReq) (h : st.isOnline = false) :
    appApiCallSt outs st r
      = ({ st with requestQueue := st.requestQueue ++ [r] }, .queued)
    ∧ v2ApiCall false outs = .queued := by
  constructor
  · simp [appApiCallSt, h]
  · rfl

/-- C1, witness: a concrete offline call on an empty queue enqueues the
request and returns a pending result. -/
theorem c1_offline_queueing_witness :
    appApiCallSt persistentNetFailure ⟨false, []⟩ ⟨0, .success "d"⟩
      = (⟨false, [⟨0, .success "d"⟩]⟩, .queued)
    ∧ v2ApiCall false persistentNetFailure = .queued :=
  c1_offline_queueing persistentNetFailure ⟨false, []⟩ ⟨0, .success "d"⟩ rfl

/-- C2: in every revision, the backoff delay waited before retry attempt
n (1-indexed among retries) equals min (1000 * 2 ^ (n - 1)) 5000
milliseconds.  The src/App.jsx and src/test.js loops compute exactly this
formula; the second src/unnamed/part_002 loop computes the uncapped
1000 * 2 ^ (n - 1), which coincides with the capped formula because its
retry bound 3 keeps every delay at 4000 ms or below. -/
theorem c2_backoff_formula (outs : Nat → FetchOutcome) (n d : Nat) (hn : 1 ≤ n) :
    (∀ tr, appApiCall true config.maxRetries outs = .completed tr →
        tr.delays[n - 1]? = some d → d = min (1000 * 2 ^ (n - 1)) 5000)
  ∧ (∀ tr, testApiCall true config.maxRetries outs = .completed tr →
        tr.delays[n - 1]? = some d → d = min (1000 * 2 ^ (n - 1)) 5000)
  ∧ (∀ tr, v2ApiCall true outs = .completed tr →
        tr.delays[n - 1]? = some d → d = min (1000 * 2 ^ (n - 1)) 5000) := by
  refine ⟨?_, ?_, ?_⟩
  · intro tr htr hget
    simp [appApiCall] at htr
    subst htr
    have hd := retryLoop_delays_get appMakeRequest appRetryable appDelay outs
      config.maxRetries 0 (n - 1) d hget
    simpa [appDelay] using hd
  · intro tr htr hget
    simp [testApiCall] at htr
    subst htr
    have hd := retryLoop_delays_get testMakeRequest testRetryable appDelay outs
      config.maxRetries 0 (n - 1) d hget
    simpa [appDelay] using hd
  · intro tr htr hget
    simp [v2ApiCall] at htr
    subst htr
    have hd := retryLoop_delays_get v2MakeRequest v2Retryable v2Delay outs
      3 0 (n - 1) d hget
    obtain ⟨hlt, -⟩ := List.getElem?_eq_some.mp hget
    have hlen := retryLoop_delays_length v2MakeRequest v2Retryable v2Delay outs 3 0
    have h3 : n - 1 < 3 := lt_of_lt_of_le hlt hlen
    have hp : 2 ^ (n - 1) ≤ 4 := by
      have := Nat.pow_le_pow_right (show 1 ≤ 2 by norm_num) (show n - 1 ≤ 2 by omega)
      simpa using this
    have hd2 : d = 1000 * 2 ^ (n - 1) := by simpa [v2Delay] using hd
    omega

/-- C2, witness: with every attempt failing as a network error, the delay
recorded before the first retry is 1000 ms, matching the formula at n = 1. -/
theorem c2_backoff_formula_witness : (1000 : Nat) = min (1000 * 2 ^ (1 - 1)) 5000 :=
  (c2_backoff_formula persistentNetFailure 1 1000 (Nat.le_refl 1)).1
    ⟨.error ⟨"TypeError", "Failed to fetch"⟩, [0, 1, 2, 3], [1000, 2000, 4000]⟩ rfl rfl

/-- C3: the queue drain settles requests strictly in FIFO order with no
skips and no double resolution.  `processQueue` settles exactly a prefix
of the queue in submission order — each settled request by the single
dispatch `settleOne` — and leaves the matching suffix queued (an offline
flip mid-drain stops the loop without skipping or re-settling anything);
when the network flag stays on at every loop check, the whole queue is
settled in order. -/
theorem c3_fifo_drain (online : Nat → Bool) (q : List QueuedReq) :
    ∃ k, k ≤ q.length ∧
      processQueue online 0 q = ((q.take k).map settleOne, q.drop k) ∧
      ((∀ s, online s = true) → k = q.length) :=
  processQueue_spec online q 0

/-- C3, witness: a two-element queue drained while online settles both
requests in order, the first resolved and the second rejected, leaving an
empty queue. -/
theorem c3_fifo_drain_witness :
    processQueue (fun _ => true) 0
        [⟨1, .success "a"⟩, ⟨2, .httpError 500 "Internal" none⟩]
      = ([.resolved 1 "a", .rejected 2 ⟨"Error", "API Error: 500 Internal"⟩], []) := by
  obtain ⟨k, hk, heq, hall⟩ := c3_fifo_drain (fun _ => true)
    [⟨1, .success "a"⟩, ⟨2, .httpError 500 "Internal" none⟩]
  have hk2 : k = 2 := hall (fun _ => rfl)
  subst hk2
  rw [heq]
  rfl

/-- C4, counterexample: the retry loop never re-reads the network flag.
With the state online at call time, offline from the first retry onwards
(`offlineAfterFirst`), and every attempt failing as a network error, the
client still dispatches retry attempts 1, 2 and 3 — contradicting the
claim that no subsequent retry attempt is dispatched after the state
flips to offline. -/
theorem c4_counterexample :
    appApiCall (offlineAfterFirst 0) config.maxRetries persistentNetFailure
      = .completed ⟨.error ⟨"TypeError", "Failed to fetch"⟩, [0, 1, 2, 3], [1000, 2000, 4000]⟩
    ∧ offlineAfterFirst 1 = false ∧ offlineAfterFirst 2 = false
    ∧ offlineAfterFirst 3 = false :=
  ⟨rfl, rfl, rfl, rfl⟩

/-- C4, amended: `this.isOnline` is consulted only once, on entry to
`apiCall`; the retry loop then dispatches every remaining attempt
regardless of later offline transitions.  Whatever the network trace does
after attempt 0, a request entered while online whose attempts keep
failing retryably is dispatched all 4 times with the standard backoff. -/
theorem c4_retry_ignores_network (net : Nat → Bool) (outs : Nat → FetchOutcome)
    (e : Nat → JsError) (hon : net 0 = true)
    (hoff : ∀ i, 1 ≤ i → net i = false)
    (h : ∀ i, i ≤ config.maxRetries →
      appMakeRequest (outs i) = .error (e i) ∧ appRetryable (e i) = true) :
    appApiCall (net 0) config.maxRetries outs
      = .completed ⟨.error (e 3), [0, 1, 2, 3], [1000, 2000, 4000]⟩ := by
  have hloop := retryLoop_all_fail appMakeRequest appRetryable appDelay outs e
    config.maxRetries 0 (fun i hi => by simpa using h i hi)
  rw [hon]
  have hdef : appApiCall true config.maxRetries outs
      = .completed (retryLoop appMakeRequest appRetryable appDelay outs 0 config.maxRetries) := rfl
  rw [hdef, hloop]
  rfl

/-- C4, witness: the amended statement at a concrete offline-after-entry
trace and a concrete persistent network failure. -/
theorem c4_retry_ignores_network_witness :
    appApiCall (offlineAfterFirst 0) config.maxRetries
        (fun _ => .netFailure "TypeError" "NetworkError when attempting to fetch resource.")
      = .completed ⟨.error ⟨"TypeError", "NetworkError when attempting to fetch resource."⟩,
          [0, 1, 2, 3], [1000, 2000, 4000]⟩ :=
  c4_retry_ignores_network offlineAfterFirst
    (fun _ => .netFailure "TypeError" "NetworkError when attempting to fetch resource.")
    (fun _ => ⟨"TypeError", "NetworkError when attempting to fetch resource."⟩)
    rfl
    (fun i hi => by simp only [offlineAfterFirst]; simp; omega)
    (fun i _ => ⟨rfl, (by decide :
      appRetryable ⟨"TypeError", "NetworkError when attempting to fetch resource."⟩ = true)⟩)

/-- C5, counterexample: retry classification is by message substring, so a
401 response whose error-body message contains "network" is retried like a
transient failure: all 4 attempts are dispatched, not exactly one, and the
request rejects only after the retries are exhausted. -/
theorem c5_counterexample :
    appApiCall true config.maxRetries
        (fun _ => .httpError 401 "Unauthorized" (some "upstream network glitch"))
      = .completed ⟨.error ⟨"Error", "upstream network glitch"⟩,
          [0, 1, 2, 3], [1000, 2000, 4000]⟩ :=
  rfl

/-- C5, amended: a 401 response is never retried when its surfaced
message is not classified retryable — in particular whenever the body is
absent or its message avoids the substrings "fetch", "network" and
"timeout", as the default fallback "API Error: 401 ..." does — and the
call then rejects with that error after exactly one attempt, for any
retry maximum. -/
theorem c5_unauthorized_single_attempt (outs : Nat → FetchOutcome) (mr : Nat)
    (stx : String) (bm : Option String)
    (h0 : outs 0 = .httpError 401 stx bm)
    (hm : appRetryable ⟨"Error", appErrorMessage 401 stx bm⟩ = false) :
    appApiCall true mr outs
      = .completed ⟨.error ⟨"Error", appErrorMessage 401 stx bm⟩, [0], []⟩ := by
  cases mr with
  | zero => simp [appApiCall, retryLoop, h0, appMakeRequest]
  | succ r => simp [appApiCall, retryLoop, h0, appMakeRequest, hm]

/-- C5, witness: a bare 401 with no parsable body rejects with the
fallback message after exactly one dispatched attempt. -/
theorem c5_unauthorized_single_attempt_witness :
    appApiCall true config.maxRetries (fun _ => .httpError 401 "Unauthorized" none)
      = .completed ⟨.error ⟨"Error", "API Error: 401 Unauthorized"⟩, [0], []⟩ :=
  c5_unauthorized_single_attempt (fun _ => .httpError 401 "Unauthorized" none)
    config.maxRetries "Unauthorized" none rfl (by decide)

/-- C6: in the second src/unnamed/part_002 client a timed-out first
attempt is NOT followed by a retry although attempts remain: `makeRequest`
converts the AbortError into Error "Request timeout", whose name and
message match none of that revision's retry conditions, so the call
rejects terminally after one attempt — even though the classifier's own
AbortError branch (made unreachable by the conversion) and the src/App.jsx
revision (which retries and succeeds on the same outcomes) show the retry
was the intent. -/
theorem c6_v2_timeout_not_retried :
    v2ApiCall true timeoutThenSuccess
      = .completed ⟨.error ⟨"Error", "Request timeout"⟩, [0], []⟩
    ∧ appApiCall true config.maxRetries timeoutThenSuccess
      = .completed ⟨.ok "ok", [0, 1], [1000]⟩
    ∧ v2MakeRequest .timedOut = .error ⟨"Error", "Request timeout"⟩
    ∧ v2Retryable ⟨"Error", "Request timeout"⟩ = false
    ∧ v2Retryable ⟨"AbortError", "The operation was aborted"⟩ = true :=
  ⟨rfl, rfl, rfl, by decide, by decide⟩

/-- C7, counterexample: the bearer header is derived from the token read
once at call entry, so with a token store holding "old-token" at attempt 0
and "new-token" at attempt 1, the dispatch of attempt 1 still carries
"Bearer old-token", not a header derived from the rotated token — the
claimed re-read at attempt time does not happen. -/
theorem c7_counterexample :
    authHeaderAtAttempt rotatedToken [] 1 = some "Bearer old-token"
    ∧ rotatedToken 1 = some "new-token"
    ∧ some "Bearer old-token" ≠ some ("Bearer " ++ "new-token") :=
  ⟨rfl, rfl, by decide⟩

/-- C7, amended: when a session token is present at call time and the
caller has not set a truthy Authorization header, every attempt carries
the bearer header derived from that call-time token (constant across
attempts, so a rotation mid-retry is not honored); a caller-set truthy
Authorization header is left untouched. -/
theorem c7_header_from_call_time_token (tokenAt : Nat → Option String)
    (headers : List (String × String)) (t : String) (a : Nat)
    (htok : tokenAt 0 = some t) (ht : t ≠ "")
    (hh : truthyStr (headers.lookup "Authorization") = false) :
    authHeaderAtAttempt tokenAt headers a = some ("Bearer " ++ t)
    ∧ authHeaderAtAttempt tokenAt headers a = authHeaderAtAttempt tokenAt headers 0
    ∧ (∀ (hdrs : List (String × String)) (v : String), v ≠ "" →
        hdrs.lookup "Authorization" = some v →
        authHeaderAtAttempt tokenAt hdrs a = some v) := by
  refine ⟨?_, rfl, ?_⟩
  · have hts : truthyStr (some t) = true := by simp [truthyStr, ht]
    simp only [authHeaderAtAttempt, authInjectHeaders, htok, hts, hh, Bool.not_false,
      Bool.and_true, if_true, Option.getD_some]
    exact lookup_setHeader headers "Authorization" ("Bearer " ++ t)
  · intro hdrs v hv hlook
    have htv : truthyStr (some v) = true := by simp [truthyStr, hv]
    simp [authHeaderAtAttempt, authInjectHeaders, hlook, htv]

/-- C7, witness: the amended statement at the rotating token store — the
header of attempt 1 is the one derived from the call-time token. -/
theorem c7_header_from_call_time_token_witness :
    authHeaderAtAttempt rotatedToken [] 1 = some ("Bearer " ++ "old-token") :=
  (c7_header_from_call_time_token rotatedToken [] "old-token" 1 rfl (by decide) rfl).1

/-- C8: a directly dispatched request whose every attempt fails with a
retryable error is dispatched exactly 4 times (the first attempt plus the
configured 3 retries), waits the standard backoff between attempts, and
then rejects with the error of the last attempt. -/
theorem c8_exhausted_retries (outs : Nat → FetchOutcome) (e : Nat → JsError)
    (h : ∀ i, i ≤ config.maxRetries →
      appMakeRequest (outs i) = .error (e i) ∧ appRetryable (e i) = true) :
    appApiCall true config.maxRetries outs
      = .completed ⟨.error (e config.maxRetries), [0, 1, 2, 3], [1000, 2000, 4000]⟩ := by
  have hloop := retryLoop_all_fail appMakeRequest appRetryable appDelay outs e
    config.maxRetries 0 (fun i hi => by simpa using h i hi)
  have hdef : appApiCall true config.maxRetries outs
      = .completed (retryLoop appMakeRequest appRetryable appDelay outs 0 config.maxRetries) := rfl
  rw [hdef, hloop]
  rfl

/-- C8, witness: four dispatched attempts and a terminal rejection with
the last network error when every attempt fails with
TypeError "Failed to fetch". -/
theorem c8_exhausted_retries_witness :
    appApiCall true config.maxRetries persistentNetFailure
      = .completed ⟨.error ⟨"TypeError", "Failed to fetch"⟩, [0, 1, 2, 3], [1000, 2000, 4000]⟩ :=
  c8_exhausted_retries persistentNetFailure (fun _ => ⟨"TypeError", "Failed to fetch"⟩)
    (fun i _ => ⟨rfl, (by decide : appRetryable ⟨"TypeError", "Failed to fetch"⟩ = true)⟩)

/-- C9: for a non-success response, a truthy parsed error-body message is
surfaced verbatim; when the body is absent, unparsable or its message is
empty, the surfaced error carries the generic status-bearing fallback
(the literal template is "API Error: {status} {statusText}" in App.jsx
and "API Error: {status}" in test.js and part_002, each containing the
decimal status). -/
theorem c9_error_message (status : Nat) (statusText : String) (m : String)
    (hm : m ≠ "") :
    appErrorMessage status statusText (some m) = m
    ∧ appErrorMessage status statusText none
        = "API Error: " ++ toString status ++ " " ++ statusText
    ∧ appErrorMessage status statusText (some "")
        = "API Error: " ++ toString status ++ " " ++ statusText
    ∧ (∀ bm, bm = none ∨ bm = some "" →
        ∃ pre post, appErrorMessage status statusText bm
          = pre ++ toString status ++ post)
    ∧ testErrorMessage status (some m) = m
    ∧ (∃ pre post, testErrorMessage status none = pre ++ toString status ++ post)
    ∧ v2ErrorMessage status (some m) = m
    ∧ (∃ pre post, v2ErrorMessage status none = pre ++ toString status ++ post) := by
  refine ⟨by simp [appErrorMessage, hm], rfl, rfl, ?_, by simp [testErrorMessage, hm],
    ⟨"API Error: ", "", by simp [testErrorMessage]⟩, by simp [v2ErrorMessage, hm],
    ⟨"API Error: ", "", by simp [v2ErrorMessage]⟩⟩
  rintro bm (rfl | rfl)
  · exact ⟨"API Error: ", " " ++ statusText, by simp [appErrorMessage, String.append_assoc]⟩
  · exact ⟨"API Error: ", " " ++ statusText, by simp [appErrorMessage, String.append_assoc]⟩

/-- C9, witness: a 404 with a parsable message surfaces it verbatim and a
404 with no body surfaces the generic status-bearing fallback. -/
theorem c9_error_message_witness :
    appErrorMessage 404 "Not Found" (some "Video not found") = "Video not found"
    ∧ appErrorMessage 404 "Not Found" none = "API Error: " ++ toString 404 ++ " " ++ "Not Found" :=
  ⟨(c9_error_message 404 "Not Found" "Video not found" (by decide)).1,
    (c9_error_message 404 "Not Found" "Video not found" (by decide)).2.1⟩

/-- C10: the queue drain settles each dequeued request by exactly one
dispatch with no retry and no backoff: `processQueue` maps `settleOne`
over a prefix of the queue, `settleOne` resolves the pending result on a
successful single attempt and rejects it terminally on a failed one, and —
unlike the drain — the direct dispatch path run on the same retryably
failing outcome dispatches more than one attempt. -/
theorem c10_drain_single_dispatch (online : Nat → Bool) (q : List QueuedReq)
    (r : QueuedReq) :
    (∃ k, processQueue online 0 q = ((q.take k).map settleOne, q.drop k))
    ∧ (∀ d, appMakeRequest r.outcome = .ok d → settleOne r = .resolved r.id d)
    ∧ (∀ e, appMakeRequest r.outcome = .error e → settleOne r = .rejected r.id e)
    ∧ (∀ e, appMakeRequest r.outcome = .error e → appRetryable e = true →
        (retryLoop appMakeRequest appRetryable appDelay (fun _ => r.outcome) 0
          config.maxRetries).dispatched ≠ [0]) := by
  refine ⟨?_, ?_, ?_, ?_⟩
  · obtain ⟨k, -, heq, -⟩ := processQueue_spec online q 0
    exact ⟨k, heq⟩
  · intro d hd
    simp [settleOne, hd]
  · intro e he
    simp [settleOne, he]
  · intro e he hret hcon
    rw [show config.maxRetries = 3 from rfl] at hcon
    simp only [retryLoop, he, hret, if_true] at hcon
    simp at hcon

/-- C10, witness: a queued request whose single dispatch yields a 500
response is rejected terminally with the constructed error. -/
theorem c10_drain_single_dispatch_witness :
    settleOne ⟨7, .httpError 500 "Internal Server Error" none⟩
      = .rejected 7 ⟨"Error", "API Error: 500 Internal Server Error"⟩ :=
  (c10_drain_single_dispatch (fun _ => true) []
      ⟨7, .httpError 500 "Internal Server Error" none⟩).2.2.1
    ⟨"Error", "API Error: 500 Internal Server Error"⟩ rfl

end Influencore
